import Mathlib

/-!
Verification of the PatientVitals service (src/main.py) against its
specification.

Shallow embedding conventions:
* A `datetime` instant is modelled as an integer (`ℤ`).  Its ISO-8601
  rendering (`datetime.isoformat`) and its compact `strftime("%Y%m%d%H%M%S")`
  rendering are both modelled by the decimal notation `toString : ℤ → String`,
  and `datetime.fromisoformat` by the partial inverse `String.toInt?`.
  Calendar arithmetic plays no role in any claim; only "render to a string"
  and "parse back, possibly failing" matter.
* A Python `float` is modelled as `ℚ`; the claims never depend on binary
  floating-point rounding, only on presence/absence, zero-ness and an
  abstract string rendering.
* A MongoDB document is an association list `List (String × Bson)`.
  `insert_one` assigns object ids from a counter; `str(ObjectId)` is
  modelled by the decimal rendering of that counter.
* An HTTP JSON response is a status code plus a list of string key/value
  pairs; FastAPI's `HTTPException` and error paths are modelled with
  `Except Nat`, the `Nat` being the HTTP status code of the error.
* `datetime.utcnow()` is passed in explicitly as a `now : ℤ` parameter.
-/

namespace PatientVitals

/-- BSON values as far as this service uses them: nulls, strings, integers,
floats, object ids, datetimes and nested documents. -/
inductive Bson where
| null : Bson
| str (s : String) : Bson
| int (n : ℤ) : Bson
| float (q : ℚ) : Bson
| oid (n : ℕ) : Bson
| time (t : ℤ) : Bson
| doc (fields : List (String × Bson)) : Bson
deriving Repr

/-- A stored MongoDB document: an association list of field name / value. -/
abbrev BsonDoc := List (String × Bson)

/-- src/main.py `BloodPressure`: two optional integer fields. -/
structure BloodPressure where
  systolic : Option ℤ
  diastolic : Option ℤ
deriving Repr, DecidableEq

/-- src/main.py `Vitals`: one vitals reading.  `patient_id` is required,
everything else optional (pydantic `Optional[...] = None`). -/
structure Vitals where
  patient_id : String
  patient_name : Option String
  timestamp : Option ℤ
  heart_rate : Option ℤ
  blood_pressure : Option BloodPressure
  respiratory_rate : Option ℤ
  temperature_c : Option ℚ
  oxygen_saturation : Option ℤ
  notes : Option String
deriving Repr

/-- `datetime.isoformat`, abstracted to the decimal rendering of the
modelled instant (injective, with `parseIso` as partial inverse). -/
def isoformat (t : ℤ) : String := toString t

/-- The numeric value of a decimal digit character. -/
def digit? (c : Char) : Option ℕ :=
  if c = '0' then some 0
  else if c = '1' then some 1
  else if c = '2' then some 2
  else if c = '3' then some 3
  else if c = '4' then some 4
  else if c = '5' then some 5
  else if c = '6' then some 6
  else if c = '7' then some 7
  else if c = '8' then some 8
  else if c = '9' then some 9
  else none

/-- Parse a non-empty run of decimal digits, failing on any other
character. -/
def parseNatDigits : List Char → ℕ → Option ℕ
| [], acc => some acc
| c :: cs, acc =>
    match digit? c with
    | some d => parseNatDigits cs (acc * 10 + d)
    | none => none

/-- `datetime.fromisoformat`, which raises on unparsable input: modelled as
the partial inverse of `isoformat` (a decimal numeral parser that fails on
anything else, just as `fromisoformat` fails on a non-ISO string). -/
def parseIso (s : String) : Option ℤ :=
  match s.data with
  | [] => none
  | '-' :: cs =>
      match cs with
      | [] => none
      | _ => (parseNatDigits cs 0).map (fun n => -(n : ℤ))
  | cs => (parseNatDigits cs 0).map (fun n => (n : ℤ))

/-- `strftime("%Y%m%d%H%M%S")`, abstracted like `isoformat`. -/
def compactTs (t : ℤ) : String := toString t

/-- Python `str(x)` for an `Optional[int]`: `str(None) = "None"`. -/
def pyStrOptInt : Option ℤ → String
| none => "None"
| some n => toString n

/-- Python `x or d` for `x : Optional[int]`: `None` and `0` are falsy. -/
def pyOrInt (x : Option ℤ) (d : String) : String :=
  match x with
  | some n => if n = 0 then d else toString n
  | none => d

/-- Abstract rendering of a Python float (`str(x)`). -/
def floatStr (q : ℚ) : String := toString q

/-- Python `x or d` for `x : Optional[float]`: `None` and `0.0` are falsy. -/
def pyOrFloat (x : Option ℚ) (d : String) : String :=
  match x with
  | some q => if q = 0 then d else floatStr q
  | none => d

/-- Python `x or d` for `x : Optional[str]`: `None` and `""` are falsy. -/
def pyOrStr (x : Option String) (d : String) : String :=
  match x with
  | some s => if s = "" then d else s
  | none => d

/-- Encode an optional string as a BSON value (pydantic `.dict()` keeps
`None` as an explicit null). -/
def optStrBson : Option String → Bson
| none => Bson.null
| some s => Bson.str s

/-- Encode an optional integer as a BSON value. -/
def optIntBson : Option ℤ → Bson
| none => Bson.null
| some n => Bson.int n

/-- Encode an optional float as a BSON value. -/
def optFloatBson : Option ℚ → Bson
| none => Bson.null
| some q => Bson.float q

/-- Encode an optional datetime as a BSON value. -/
def optTimeBson : Option ℤ → Bson
| none => Bson.null
| some t => Bson.time t

/-- pydantic `.dict()` on the nested `BloodPressure` model. -/
def BloodPressure.dict (bp : BloodPressure) : Bson :=
  Bson.doc [("systolic", optIntBson bp.systolic),
            ("diastolic", optIntBson bp.diastolic)]

/-- pydantic `v.dict()`: every declared field appears, absent optionals as
explicit nulls, in declaration order. -/
def Vitals.dict (v : Vitals) : BsonDoc :=
  [("patient_id", Bson.str v.patient_id),
   ("patient_name", optStrBson v.patient_name),
   ("timestamp", optTimeBson v.timestamp),
   ("heart_rate", optIntBson v.heart_rate),
   ("blood_pressure",
     match v.blood_pressure with
     | none => Bson.null
     | some bp => bp.dict),
   ("respiratory_rate", optIntBson v.respiratory_rate),
   ("temperature_c", optFloatBson v.temperature_c),
   ("oxygen_saturation", optIntBson v.oxygen_saturation),
   ("notes", optStrBson v.notes)]

/-- The `vitals` collection plus the object-id counter used by
`insert_one`.  Records are only ever appended (no update/delete route). -/
structure DB where
  nextId : ℕ
  docs : List BsonDoc

/-- An HTTP JSON response: status plus flat string key/value body. -/
structure JsonResp where
  status : ℕ
  body : List (String × String)

/-- `JSONResponse(content)`: Starlette's default status code is 200.
FastAPI returns a `Response` instance unchanged, so the route decorator's
`status_code=201` does not apply to it. -/
def jsonResponse (body : List (String × String)) : JsonResp :=
  { status := 200, body := body }

/-- The status code declared by the `@app.post("/vitals", status_code=201)`
decorator (used for the OpenAPI docs and for non-`Response` return values). -/
def post_vitals_declared_status : ℕ := 201

/-- The timestamp substitution of `post_vitals` lines 104-105: `if
v.timestamp is None: v.timestamp = datetime.utcnow()`. -/
def filledVitals (now : ℤ) (v : Vitals) : Vitals :=
  if v.timestamp = none then { v with timestamp := some now } else v

/-- src/main.py `post_vitals` (lines 101-109): fill a missing timestamp with
`utcnow`, insert `v.dict()` (with the assigned `_id`) into the collection,
and return the confirmation `JSONResponse`. -/
def post_vitals (db : DB) (now : ℤ) (v : Vitals) : DB × JsonResp :=
  let doc : BsonDoc := ("_id", Bson.oid db.nextId) :: (filledVitals now v).dict
  let db' : DB := { nextId := db.nextId + 1, docs := db.docs ++ [doc] }
  (db', jsonResponse [("message", "Vitals saved"),
                      ("patient_id", v.patient_id),
                      ("id", toString db.nextId)])

/-- Does a stored document match the Mongo filter `{"patient_id": pid}`? -/
def docMatchesPatient (d : BsonDoc) (pid : String) : Bool :=
  match d.lookup "patient_id" with
  | some (Bson.str s) => s == pid
  | _ => false

/-- All stored documents matching `{"patient_id": pid}`, in insertion
order (the result of `db.vitals.find({"patient_id": patient_id})`). -/
def patientDocs (db : DB) (pid : String) : List BsonDoc :=
  db.docs.filter (fun d => docMatchesPatient d pid)

/-- The value a document's `timestamp` field sorts by (missing field and
explicit null sort alike). -/
def tsOf (d : BsonDoc) : Option Bson := d.lookup "timestamp"

/-- BSON type ranks in MongoDB's cross-type sort order, restricted to the
types this service can store in `timestamp`: null/missing < numbers <
strings < objects < object ids < dates. -/
def tsRank : Option Bson → ℕ
| none => 0
| some Bson.null => 0
| some (Bson.int _) => 1
| some (Bson.float _) => 1
| some (Bson.str _) => 2
| some (Bson.doc _) => 3
| some (Bson.oid _) => 4
| some (Bson.time _) => 5

/-- Numeric value of a rank-1 BSON value (ints and floats compare
numerically in MongoDB). -/
def numQ : Option Bson → ℚ
| some (Bson.int n) => (n : ℚ)
| some (Bson.float q) => q
| _ => 0

/-- String value of a rank-2 BSON value. -/
def strV : Option Bson → String
| some (Bson.str s) => s
| _ => ""

/-- Instant of a rank-5 BSON value. -/
def timeV : Option Bson → ℤ
| some (Bson.time t) => t
| _ => 0

/-- MongoDB's ascending comparison on (possibly missing) `timestamp`
values: by type rank first, then by value within the comparable ranks. -/
def bsonLe (a b : Option Bson) : Prop :=
  tsRank a < tsRank b ∨
    (tsRank a = tsRank b ∧
      (if tsRank a = 1 then numQ a ≤ numQ b
       else if tsRank a = 2 then strV a ≤ strV b
       else if tsRank a = 5 then timeV a ≤ timeV b
       else True))

instance : DecidableRel bsonLe := fun a b => by
  unfold bsonLe
  infer_instance

/-- `sort("timestamp", -1)`: document `d` may precede document `e` iff
`e`'s timestamp is `bsonLe` `d`'s. -/
def tsDesc (d e : BsonDoc) : Prop := bsonLe (tsOf e) (tsOf d)

instance : DecidableRel tsDesc := fun d e => by
  unfold tsDesc
  infer_instance

theorem bsonLe_total (a b : Option Bson) : bsonLe a b ∨ bsonLe b a := by
  unfold bsonLe
  rcases Nat.lt_trichotomy (tsRank a) (tsRank b) with h | h | h
  · exact Or.inl (Or.inl h)
  · rw [h]
    split_ifs with h1 h2 h3
    · rcases le_total (numQ a) (numQ b) with hq | hq
      · exact Or.inl (Or.inr ⟨rfl, hq⟩)
      · exact Or.inr (Or.inr ⟨rfl, hq⟩)
    · rcases le_total (strV a) (strV b) with hq | hq
      · exact Or.inl (Or.inr ⟨rfl, hq⟩)
      · exact Or.inr (Or.inr ⟨rfl, hq⟩)
    · rcases le_total (timeV a) (timeV b) with hq | hq
      · exact Or.inl (Or.inr ⟨rfl, hq⟩)
      · exact Or.inr (Or.inr ⟨rfl, hq⟩)
    · exact Or.inl (Or.inr ⟨rfl, trivial⟩)
  · exact Or.inr (Or.inl h)

theorem bsonLe_trans {a b c : Option Bson} (hab : bsonLe a b) (hbc : bsonLe b c) :
    bsonLe a c := by
  unfold bsonLe at *
  rcases hab with h1 | ⟨e1, v1⟩
  · rcases hbc with h2 | ⟨e2, v2⟩
    · exact Or.inl (h1.trans h2)
    · exact Or.inl (e2 ▸ h1)
  · rcases hbc with h2 | ⟨e2, v2⟩
    · exact Or.inl (e1 ▸ h2)
    · refine Or.inr ⟨e1.trans e2, ?_⟩
      rw [e1] at v1 ⊢
      split_ifs at v1 v2 ⊢ with h1 h2 h3 <;>
        first
        | exact le_trans v1 v2
        | trivial

instance : IsTotal BsonDoc tsDesc := ⟨fun d e => by
  unfold tsDesc
  exact bsonLe_total (tsOf e) (tsOf d)⟩

instance : IsTrans BsonDoc tsDesc := ⟨fun _ _ _ h1 h2 => bsonLe_trans h2 h1⟩

/-- The cursor `find({"patient_id": pid}).sort("timestamp", -1)`. -/
def sortedPatientDocs (db : DB) (pid : String) : List BsonDoc :=
  List.insertionSort tsDesc (patientDocs db pid)

/-- The per-field JSON serialization `get_vitals` applies:
`doc["_id"] = str(doc["_id"])` and a datetime `timestamp` becomes its
isoformat string; every other field is untouched. -/
def renderField (k : String) (v : Bson) : Bson :=
  if k = "_id" then
    match v with
    | Bson.oid n => Bson.str (toString n)
    | x => x
  else if k = "timestamp" then
    match v with
    | Bson.time t => Bson.str (isoformat t)
    | x => x
  else v

/-- The JSON serialization `get_vitals` applies per document. -/
def renderDoc (d : BsonDoc) : BsonDoc :=
  d.map (fun kv => (kv.1, renderField kv.1 kv.2))

/-- src/main.py `get_vitals` (lines 111-125): all documents for the patient
sorted newest first and serialized; 404 when there are none. -/
def get_vitals (db : DB) (pid : String) : Except ℕ (List BsonDoc) :=
  let docs := (sortedPatientDocs db pid).map renderDoc
  if docs.isEmpty then Except.error 404 else Except.ok docs

/-- The drawn content of the single-page PDF that `build_vitals_pdf`
writes: the title line, the two header lines, the label/value rows in
drawing order, and the file path returned. -/
structure PdfReport where
  path : String
  title : String
  patient_line : String
  timestamp_line : String
  rows : List (String × String)
deriving Repr

/-- src/main.py `build_vitals_pdf` (lines 128-165).  Python truthiness is
preserved: `vitals.heart_rate or "N/A"` yields `"N/A"` for both `None` and
`0`; a present `blood_pressure` model instance is always truthy, and its
missing subfields print as `"None"` inside the f-string. -/
def build_vitals_pdf (patient_id : String) (vitals : Vitals) (now : ℤ) : PdfReport :=
  let ts := match vitals.timestamp with
            | some t => compactTs t
            | none => compactTs now
  let fname := patient_id ++ "_" ++ ts ++ ".pdf"
  let bp_str := match vitals.blood_pressure with
                | some bp => pyStrOptInt bp.systolic ++ "/" ++
                             pyStrOptInt bp.diastolic ++ " mmHg"
                | none => "N/A"
  { path := "reports/" ++ fname
    title := "Vitals Report - " ++ pyOrStr vitals.patient_name patient_id
    patient_line := "Patient ID: " ++ patient_id
    timestamp_line := "Timestamp: " ++
      (match vitals.timestamp with
       | some t => isoformat t
       | none => "N/A")
    rows := [("Heart Rate (bpm)", pyOrInt vitals.heart_rate "N/A"),
             ("Blood Pressure", bp_str),
             ("Respiratory Rate (breaths/min)", pyOrInt vitals.respiratory_rate "N/A"),
             ("Temperature (Â°C)", pyOrFloat vitals.temperature_c "N/A"),
             ("Oxygen Saturation (%)", pyOrInt vitals.oxygen_saturation "N/A"),
             ("Notes", pyOrStr vitals.notes "-")] }

/-- The normalization `get_vitals_pdf` performs on the raw stored document
before re-validating it (src/main.py lines 178-185): drop `_id`, and when
the stored `timestamp` is a string, parse it, falling back to `utcnow` when
parsing raises. -/
def normalizeDoc (d : BsonDoc) (now : ℤ) : BsonDoc :=
  let d' := d.filter (fun kv => kv.1 ≠ "_id")
  match d'.lookup "timestamp" with
  | some (Bson.str s) =>
      d'.map (fun kv =>
        (kv.1, if kv.1 = "timestamp" then Bson.time ((parseIso s).getD now) else kv.2))
  | _ => d'

/-- Read an optional string field the way pydantic validation does:
missing or null becomes `none`, a string is accepted, anything else is a
validation error (outer `none`). -/
def getOptStr (d : BsonDoc) (k : String) : Option (Option String) :=
  match d.lookup k with
  | none => some none
  | some Bson.null => some none
  | some (Bson.str s) => some (some s)
  | some _ => none

/-- Read an optional integer field (pydantic `Optional[int]`). -/
def getOptInt (d : BsonDoc) (k : String) : Option (Option ℤ) :=
  match d.lookup k with
  | none => some none
  | some Bson.null => some none
  | some (Bson.int n) => some (some n)
  | some _ => none

/-- Read an optional float field (pydantic `Optional[float]` accepts an
integer as well). -/
def getOptFloat (d : BsonDoc) (k : String) : Option (Option ℚ) :=
  match d.lookup k with
  | none => some none
  | some Bson.null => some none
  | some (Bson.float q) => some (some q)
  | some (Bson.int n) => some (some (n : ℚ))
  | some _ => none

/-- Read an optional datetime field (after `normalizeDoc` it is a native
time value or absent). -/
def getOptTime (d : BsonDoc) (k : String) : Option (Option ℤ) :=
  match d.lookup k with
  | none => some none
  | some Bson.null => some none
  | some (Bson.time t) => some (some t)
  | some _ => none

/-- Read the optional nested `blood_pressure` document. -/
def getOptBP (d : BsonDoc) : Option (Option BloodPressure) :=
  match d.lookup "blood_pressure" with
  | none => some none
  | some Bson.null => some none
  | some (Bson.doc fields) =>
      match getOptInt fields "systolic", getOptInt fields "diastolic" with
      | some s, some di => some (some { systolic := s, diastolic := di })
      | _, _ => none
  | some _ => none

/-- `Vitals(**doc)`: re-validate the raw stored document as a `Vitals`
model.  `none` models a pydantic `ValidationError`. -/
def docToVitals (d : BsonDoc) : Option Vitals := do
  let pid ← match d.lookup "patient_id" with
            | some (Bson.str s) => some s
            | _ => none
  let pname ← getOptStr d "patient_name"
  let ts ← getOptTime d "timestamp"
  let hr ← getOptInt d "heart_rate"
  let bp ← getOptBP d
  let rr ← getOptInt d "respiratory_rate"
  let tc ← getOptFloat d "temperature_c"
  let ox ← getOptInt d "oxygen_saturation"
  let nt ← getOptStr d "notes"
  pure { patient_id := pid, patient_name := pname, timestamp := ts,
         heart_rate := hr, blood_pressure := bp, respiratory_rate := rr,
         temperature_c := tc, oxygen_saturation := ox, notes := nt }

/-- src/main.py `get_vitals_pdf` (lines 167-192): fetch the most recent
document for the patient (`find_one` with `sort=[("timestamp", -1)]`,
modelled as the head of the descending-sorted matches), 404 when there is
none, normalize it, re-validate it (a `ValidationError` would surface as a
500), render the PDF, and return the file. -/
def get_vitals_pdf (db : DB) (pid : String) (now : ℤ) : Except ℕ PdfReport :=
  match (sortedPatientDocs db pid).head? with
  | none => Except.error 404
  | some d =>
      match docToVitals (normalizeDoc d now) with
      | none => Except.error 500
      | some v => Except.ok (build_vitals_pdf pid v now)

/-- The document `post_vitals db now v` hands to `insert_one` (with its
assigned object id). -/
def insertedDoc (db : DB) (now : ℤ) (v : Vitals) : BsonDoc :=
  ("_id", Bson.oid db.nextId) :: (filledVitals now v).dict

/-- The instant stored in a document's `timestamp` field, when that field
holds a native time value. -/
def tsInt (d : BsonDoc) : Option ℤ :=
  match d.lookup "timestamp" with
  | some (Bson.time t) => some t
  | _ => none

/-! ### Concrete fixtures used by witnesses and counterexamples -/

/-- The empty `vitals` collection. -/
def emptyDB : DB := { nextId := 0, docs := [] }

/-- A minimal request body: only the required `patient_id`. -/
def baseVitals (pid : String) : Vitals :=
  { patient_id := pid, patient_name := none, timestamp := none,
    heart_rate := none, blood_pressure := none, respiratory_rate := none,
    temperature_c := none, oxygen_saturation := none, notes := none }

/-- A request with a present-but-zero heart rate. -/
def vitalsHrZero : Vitals := { baseVitals "p1" with heart_rate := some 0 }

/-- The scenario request from the spec: `{"patient_id":"p1","heart_rate":72}`. -/
def vitalsHr72 : Vitals := { baseVitals "p1" with heart_rate := some 72 }

/-- A request with a full blood-pressure reading. -/
def vitalsBP : Vitals :=
  { baseVitals "p1" with
      blood_pressure := some { systolic := some 120, diastolic := some 80 } }

/-- A request whose blood-pressure object is present with only the
diastolic value. -/
def vitalsBPHalf : Vitals :=
  { baseVitals "p1" with
      blood_pressure := some { systolic := none, diastolic := some 80 } }

/-- A request whose blood-pressure object is present but empty. -/
def vitalsBPEmpty : Vitals :=
  { baseVitals "p1" with
      blood_pressure := some { systolic := none, diastolic := none } }

/-- One record for `p1` created at instant 10. -/
def dbOne : DB := (post_vitals emptyDB 10 vitalsHr72).1

/-- Two records for `p1`, created at instants 10 and 20. -/
def dbTwo : DB := (post_vitals dbOne 20 (baseVitals "p1")).1

/-! ### Helper lemmas about association-list documents -/

theorem lookup_map_keyed (g : String → Bson → Bson) (d : BsonDoc) (k : String) :
    (d.map (fun kv => (kv.1, g kv.1 kv.2))).lookup k = (d.lookup k).map (g k) := by
  induction d with
  | nil => rfl
  | cons kv rest ih =>
      by_cases h : k = kv.1
      · subst h
        simp [List.lookup]
      · have hb : (k == kv.1) = false := beq_eq_false_iff_ne.mpr h
        simpa [List.lookup, hb] using ih

theorem lookup_filter_key (d : BsonDoc) (k bad : String) (hk : k ≠ bad) :
    (d.filter (fun kv => kv.1 ≠ bad)).lookup k = d.lookup k := by
  have hkb : (k == bad) = false := beq_eq_false_iff_ne.mpr hk
  induction d with
  | nil => rfl
  | cons kv rest ih =>
      by_cases hbad : kv.1 = bad
      · have hb : (k == kv.1) = false := by
          rw [hbad]
          exact hkb
        simpa [List.filter_cons, List.lookup, hbad, hb, hkb] using ih
      · by_cases h : k = kv.1
        · subst h
          simp [List.filter_cons, List.lookup, hbad]
        · have hb : (k == kv.1) = false := beq_eq_false_iff_ne.mpr h
          simpa [List.filter_cons, List.lookup, hbad, hb] using ih

/-! ### Round-trip lemmas: decoding a document written by `Vitals.dict` -/

theorem getOptStr_encode (d : BsonDoc) (k : String) (x : Option String)
    (h : d.lookup k = some (optStrBson x)) : getOptStr d k = some x := by
  unfold getOptStr
  rw [h]
  cases x <;> rfl

theorem getOptInt_encode (d : BsonDoc) (k : String) (x : Option ℤ)
    (h : d.lookup k = some (optIntBson x)) : getOptInt d k = some x := by
  unfold getOptInt
  rw [h]
  cases x <;> rfl

theorem getOptFloat_encode (d : BsonDoc) (k : String) (x : Option ℚ)
    (h : d.lookup k = some (optFloatBson x)) : getOptFloat d k = some x := by
  unfold getOptFloat
  rw [h]
  cases x <;> rfl

theorem getOptTime_encode (d : BsonDoc) (k : String) (x : Option ℤ)
    (h : d.lookup k = some (optTimeBson x)) : getOptTime d k = some x := by
  unfold getOptTime
  rw [h]
  cases x <;> rfl

theorem getOptBP_encode (d : BsonDoc) (x : Option BloodPressure)
    (h : d.lookup "blood_pressure" =
      some (match x with
            | none => Bson.null
            | some bp => bp.dict)) :
    getOptBP d = some x := by
  unfold getOptBP
  rw [h]
  cases x with
  | none => rfl
  | some bp =>
      cases bp with
      | mk s di => cases s <;> cases di <;> rfl

/-- Re-validating a document freshly produced by `Vitals.dict` recovers the
same model instance. -/
theorem docToVitals_dict (v : Vitals) : docToVitals v.dict = some v := by
  have h1 : v.dict.lookup "patient_id" = some (Bson.str v.patient_id) := by
    simp [Vitals.dict, List.lookup]
  have h2 : getOptStr v.dict "patient_name" = some v.patient_name :=
    getOptStr_encode _ _ _ (by simp [Vitals.dict, List.lookup])
  have h3 : getOptTime v.dict "timestamp" = some v.timestamp :=
    getOptTime_encode _ _ _ (by simp [Vitals.dict, List.lookup])
  have h4 : getOptInt v.dict "heart_rate" = some v.heart_rate :=
    getOptInt_encode _ _ _ (by simp [Vitals.dict, List.lookup])
  have h5 : getOptBP v.dict = some v.blood_pressure :=
    getOptBP_encode _ _ (by simp [Vitals.dict, List.lookup])
  have h6 : getOptInt v.dict "respiratory_rate" = some v.respiratory_rate :=
    getOptInt_encode _ _ _ (by simp [Vitals.dict, List.lookup])
  have h7 : getOptFloat v.dict "temperature_c" = some v.temperature_c :=
    getOptFloat_encode _ _ _ (by simp [Vitals.dict, List.lookup])
  have h8 : getOptInt v.dict "oxygen_saturation" = some v.oxygen_saturation :=
    getOptInt_encode _ _ _ (by simp [Vitals.dict, List.lookup])
  have h9 : getOptStr v.dict "notes" = some v.notes :=
    getOptStr_encode _ _ _ (by simp [Vitals.dict, List.lookup])
  unfold docToVitals
  rw [h1]
  simp [h2, h3, h4, h5, h6, h7, h8, h9]

/-- `normalizeDoc` on a document freshly inserted by `post_vitals` just
strips the `_id`: the stored timestamp is native (or null), never a
string. -/
theorem normalize_insert (v : Vitals) (i : ℕ) (now' : ℤ) :
    normalizeDoc (("_id", Bson.oid i) :: v.dict) now' = v.dict := by
  have hf : (("_id", Bson.oid i) :: v.dict).filter (fun kv => kv.1 ≠ "_id") = v.dict := by
    simp [Vitals.dict, List.filter_cons]
  have ht : v.dict.lookup "timestamp" = some (optTimeBson v.timestamp) := by
    simp [Vitals.dict, List.lookup]
  unfold normalizeDoc
  rw [hf]
  simp only [ht]
  cases v.timestamp <;> rfl

/-! ### The values drawn in each PDF row -/

theorem rows_hr (pid : String) (v : Vitals) (now : ℤ) :
    (build_vitals_pdf pid v now).rows.lookup "Heart Rate (bpm)" =
      some (pyOrInt v.heart_rate "N/A") := by
  simp [build_vitals_pdf, List.lookup]

theorem rows_bp (pid : String) (v : Vitals) (now : ℤ) :
    (build_vitals_pdf pid v now).rows.lookup "Blood Pressure" =
      some (match v.blood_pressure with
            | some bp => pyStrOptInt bp.systolic ++ "/" ++ pyStrOptInt bp.diastolic ++ " mmHg"
            | none => "N/A") := by
  simp [build_vitals_pdf, List.lookup]

theorem rows_rr (pid : String) (v : Vitals) (now : ℤ) :
    (build_vitals_pdf pid v now).rows.lookup "Respiratory Rate (breaths/min)" =
      some (pyOrInt v.respiratory_rate "N/A") := by
  simp [build_vitals_pdf, List.lookup]

theorem rows_temp (pid : String) (v : Vitals) (now : ℤ) :
    (build_vitals_pdf pid v now).rows.lookup "Temperature (Â°C)" =
      some (pyOrFloat v.temperature_c "N/A") := by
  simp [build_vitals_pdf, List.lookup]

theorem rows_ox (pid : String) (v : Vitals) (now : ℤ) :
    (build_vitals_pdf pid v now).rows.lookup "Oxygen Saturation (%)" =
      some (pyOrInt v.oxygen_saturation "N/A") := by
  simp [build_vitals_pdf, List.lookup]

theorem rows_notes (pid : String) (v : Vitals) (now : ℤ) :
    (build_vitals_pdf pid v now).rows.lookup "Notes" =
      some (pyOrStr v.notes "-") := by
  simp [build_vitals_pdf, List.lookup]

/-! ### Behaviour of `post_vitals` and the insertion pipeline -/

theorem filledVitals_patient_id (now : ℤ) (v : Vitals) :
    (filledVitals now v).patient_id = v.patient_id := by
  unfold filledVitals
  split <;> rfl

theorem filledVitals_timestamp (now : ℤ) (v : Vitals) :
    (filledVitals now v).timestamp = some (v.timestamp.getD now) := by
  unfold filledVitals
  by_cases h : v.timestamp = none
  · simp [h]
  · cases ht : v.timestamp with
    | none => exact absurd ht h
    | some t => simp [h, ht]

theorem post_vitals_docs (db : DB) (now : ℤ) (v : Vitals) :
    (post_vitals db now v).1.docs = db.docs ++ [insertedDoc db now v] := rfl

theorem insertedDoc_lookup_pid (db : DB) (now : ℤ) (v : Vitals) :
    (insertedDoc db now v).lookup "patient_id" = some (Bson.str v.patient_id) := by
  simp [insertedDoc, Vitals.dict, List.lookup, filledVitals_patient_id]

theorem insertedDoc_lookup_ts (db : DB) (now : ℤ) (v : Vitals) :
    (insertedDoc db now v).lookup "timestamp" =
      some (Bson.time (v.timestamp.getD now)) := by
  simp [insertedDoc, Vitals.dict, List.lookup, filledVitals_timestamp, optTimeBson]

theorem insertedDoc_matches_self (db : DB) (now : ℤ) (v : Vitals) :
    docMatchesPatient (insertedDoc db now v) v.patient_id = true := by
  unfold docMatchesPatient
  rw [insertedDoc_lookup_pid]
  simp

theorem patientDocs_post (db : DB) (now : ℤ) (v : Vitals) :
    patientDocs (post_vitals db now v).1 v.patient_id =
      patientDocs db v.patient_id ++ [insertedDoc db now v] := by
  unfold patientDocs
  rw [post_vitals_docs, List.filter_append]
  congr 1
  simp [List.filter_cons, insertedDoc_matches_self]

theorem mem_sortedPatientDocs (db : DB) (pid : String) (d : BsonDoc) :
    d ∈ sortedPatientDocs db pid ↔ d ∈ patientDocs db pid := by
  unfold sortedPatientDocs
  exact List.mem_insertionSort tsDesc

theorem get_vitals_of_mem (db : DB) (pid : String) (d : BsonDoc)
    (hd : d ∈ patientDocs db pid) :
    ∃ l, get_vitals db pid = Except.ok l ∧ renderDoc d ∈ l := by
  have hmem : d ∈ sortedPatientDocs db pid := (mem_sortedPatientDocs db pid d).mpr hd
  have hmem2 : renderDoc d ∈ (sortedPatientDocs db pid).map renderDoc :=
    List.mem_map_of_mem renderDoc hmem
  have hne : ((sortedPatientDocs db pid).map renderDoc).isEmpty = false := by
    rw [List.isEmpty_eq_false]
    exact List.ne_nil_of_mem hmem2
  refine ⟨_, ?_, hmem2⟩
  unfold get_vitals
  simp [hne]

theorem renderDoc_lookup_ts (d : BsonDoc) :
    (renderDoc d).lookup "timestamp" =
      (d.lookup "timestamp").map (renderField "timestamp") :=
  lookup_map_keyed renderField d "timestamp"

theorem renderField_ts_time (t : ℤ) :
    renderField "timestamp" (Bson.time t) = Bson.str (isoformat t) := by
  simp [renderField]

/-- The whole PDF pipeline on a collection holding exactly one freshly
inserted record. -/
theorem get_vitals_pdf_single (v : Vitals) (now now2 : ℤ) :
    get_vitals_pdf (post_vitals emptyDB now v).1 v.patient_id now2 =
      Except.ok (build_vitals_pdf v.patient_id (filledVitals now v) now2) := by
  have hp : patientDocs (post_vitals emptyDB now v).1 v.patient_id =
      [insertedDoc emptyDB now v] := by
    rw [patientDocs_post]
    simp [patientDocs, emptyDB]
  have hs : sortedPatientDocs (post_vitals emptyDB now v).1 v.patient_id =
      [insertedDoc emptyDB now v] := by
    unfold sortedPatientDocs
    rw [hp]
    rfl
  unfold get_vitals_pdf
  rw [hs]
  show (match docToVitals (normalizeDoc (insertedDoc emptyDB now v) now2) with
        | none => Except.error 500
        | some v' => Except.ok (build_vitals_pdf v.patient_id v' now2)) = _
  rw [show normalizeDoc (insertedDoc emptyDB now v) now2 = (filledVitals now v).dict from
        normalize_insert (filledVitals now v) emptyDB.nextId now2,
      docToVitals_dict]

/-! ### Sorting facts -/

theorem tsOf_time {d : BsonDoc} {t : ℤ} (h : tsInt d = some t) :
    tsOf d = some (Bson.time t) := by
  unfold tsInt at h
  unfold tsOf
  cases hm : List.lookup "timestamp" d with
  | none => simp_all
  | some b => cases b <;> simp_all

theorem bsonLe_time_le {u t : ℤ} (h : bsonLe (some (Bson.time u)) (some (Bson.time t))) :
    u ≤ t := by
  unfold bsonLe at h
  rcases h with h | ⟨_, h2⟩
  · exact absurd h (by simp [tsRank])
  · simpa [tsRank, timeV] using h2

theorem sortedPatientDocs_length (db : DB) (pid : String) :
    (sortedPatientDocs db pid).length = (patientDocs db pid).length := by
  unfold sortedPatientDocs
  exact List.length_insertionSort tsDesc (patientDocs db pid)

theorem sortedPatientDocs_ne_nil {db : DB} {pid : String}
    (h : patientDocs db pid ≠ []) : sortedPatientDocs db pid ≠ [] := by
  intro h0
  apply h
  have hl := congrArg List.length h0
  rw [sortedPatientDocs_length] at hl
  exact List.length_eq_zero.mp hl

theorem sortedPatientDocs_sorted (db : DB) (pid : String) :
    List.Sorted tsDesc (sortedPatientDocs db pid) :=
  List.sorted_insertionSort tsDesc (patientDocs db pid)

theorem sortedPatientDocs_perm (db : DB) (pid : String) :
    (sortedPatientDocs db pid).Perm (patientDocs db pid) :=
  List.perm_insertionSort tsDesc (patientDocs db pid)

/-! ### Claims -/

/-- C1: evaluation of the Create reading operation at a well-formed request.
The handler returns a bare `JSONResponse`, whose status is 200, even though
the route decorator declares `status_code=201`; the body does consist of
exactly the keys `message`, `patient_id` and `id`, with `id` the string
form of the identifier assigned by the insert. -/
theorem c1_create_status_evaluation :
    ((post_vitals emptyDB 1000 vitalsHr72).2.status = 200)
    ∧ post_vitals_declared_status = 201
    ∧ ((post_vitals emptyDB 1000 vitalsHr72).2.body =
        [("message", "Vitals saved"), ("patient_id", "p1"), ("id", "0")])
    ∧ (200 : ℕ) ≠ 201 := by
  exact ⟨rfl, rfl, rfl, by decide⟩

/-- C2 counterexample: a record whose `heart_rate` is present with value 0
gets an "N/A" heart-rate row, because the renderer uses Python `or`
truthiness, so the claim "draws the field's value whenever the field is
present, and N/A only when it is absent" fails. -/
theorem c2_heart_rate_zero_counterexample :
    vitalsHrZero.heart_rate = some 0
    ∧ (build_vitals_pdf "p1" vitalsHrZero 5).rows.lookup "Heart Rate (bpm)" = some "N/A"
    ∧ ("N/A" : String) ≠ "0" := by
  exact ⟨rfl, rfl, by decide⟩

/-- C2 (amended): each vital-sign row shows the field's value when the
field is present with a truthy value (nonzero number, non-empty string),
and "N/A" when the field is absent or its value is falsy (0, 0.0); the
notes row shows the notes string when present and non-empty, and "-" when
notes is absent or empty. -/
theorem c2_rows_truthiness (pid : String) (v : Vitals) (now : ℤ) :
    (∀ n : ℤ, v.heart_rate = some n → n ≠ 0 →
      (build_vitals_pdf pid v now).rows.lookup "Heart Rate (bpm)" = some (toString n))
    ∧ (v.heart_rate = none ∨ v.heart_rate = some 0 →
      (build_vitals_pdf pid v now).rows.lookup "Heart Rate (bpm)" = some "N/A")
    ∧ (∀ n : ℤ, v.respiratory_rate = some n → n ≠ 0 →
      (build_vitals_pdf pid v now).rows.lookup "Respiratory Rate (breaths/min)" =
        some (toString n))
    ∧ (v.respiratory_rate = none ∨ v.respiratory_rate = some 0 →
      (build_vitals_pdf pid v now).rows.lookup "Respiratory Rate (breaths/min)" =
        some "N/A")
    ∧ (∀ q : ℚ, v.temperature_c = some q → q ≠ 0 →
      (build_vitals_pdf pid v now).rows.lookup "Temperature (Â°C)" = some (floatStr q))
    ∧ (v.temperature_c = none ∨ v.temperature_c = some 0 →
      (build_vitals_pdf pid v now).rows.lookup "Temperature (Â°C)" = some "N/A")
    ∧ (∀ n : ℤ, v.oxygen_saturation = some n → n ≠ 0 →
      (build_vitals_pdf pid v now).rows.lookup "Oxygen Saturation (%)" = some (toString n))
    ∧ (v.oxygen_saturation = none ∨ v.oxygen_saturation = some 0 →
      (build_vitals_pdf pid v now).rows.lookup "Oxygen Saturation (%)" = some "N/A")
    ∧ (∀ s : String, v.notes = some s → s ≠ "" →
      (build_vitals_pdf pid v now).rows.lookup "Notes" = some s)
    ∧ (v.notes = none ∨ v.notes = some "" →
      (build_vitals_pdf pid v now).rows.lookup "Notes" = some "-") := by
  refine ⟨?_, ?_, ?_, ?_, ?_, ?_, ?_, ?_, ?_, ?_⟩
  · intro n hn hz
    rw [rows_hr, hn]
    simp [pyOrInt, hz]
  · intro h
    rw [rows_hr]
    rcases h with h | h <;> simp [pyOrInt, h]
  · intro n hn hz
    rw [rows_rr, hn]
    simp [pyOrInt, hz]
  · intro h
    rw [rows_rr]
    rcases h with h | h <;> simp [pyOrInt, h]
  · intro q hq hz
    rw [rows_temp, hq]
    simp [pyOrFloat, hz]
  · intro h
    rw [rows_temp]
    rcases h with h | h <;> simp [pyOrFloat, h]
  · intro n hn hz
    rw [rows_ox, hn]
    simp [pyOrInt, hz]
  · intro h
    rw [rows_ox]
    rcases h with h | h <;> simp [pyOrInt, h]
  · intro s hs hz
    rw [rows_notes, hs]
    simp [pyOrStr, hz]
  · intro h
    rw [rows_notes]
    rcases h with h | h <;> simp [pyOrStr, h]

/-- Witness for the amended C2, at the spec's scenario input. -/
theorem c2_rows_truthiness_witness :
    (build_vitals_pdf "p1" vitalsHr72 5).rows.lookup "Heart Rate (bpm)" = some "72"
    ∧ (build_vitals_pdf "p1" vitalsHr72 5).rows.lookup "Notes" = some "-" :=
  ⟨(c2_rows_truthiness "p1" vitalsHr72 5).1 72 rfl (by decide),
   (c2_rows_truthiness "p1" vitalsHr72 5).2.2.2.2.2.2.2.2.2 (Or.inl rfl)⟩

/-- C7: a record inserted with full blood-pressure data produces a PDF
whose blood-pressure row is "systolic/diastolic mmHg" built from those
values; a record with no blood_pressure produces "N/A" in that row. -/
theorem c7_bp_roundtrip (v : Vitals) (now now2 sy di : ℤ) :
    (v.blood_pressure = some { systolic := some sy, diastolic := some di } →
      ∃ r, get_vitals_pdf (post_vitals emptyDB now v).1 v.patient_id now2 = Except.ok r
        ∧ r.rows.lookup "Blood Pressure" =
            some (toString sy ++ "/" ++ toString di ++ " mmHg"))
    ∧ (v.blood_pressure = none →
      ∃ r, get_vitals_pdf (post_vitals emptyDB now v).1 v.patient_id now2 = Except.ok r
        ∧ r.rows.lookup "Blood Pressure" = some "N/A") := by
  have hfb : (filledVitals now v).blood_pressure = v.blood_pressure := by
    unfold filledVitals
    split <;> rfl
  constructor
  · intro h
    refine ⟨_, get_vitals_pdf_single v now now2, ?_⟩
    rw [rows_bp, hfb, h]
    rfl
  · intro h
    refine ⟨_, get_vitals_pdf_single v now now2, ?_⟩
    rw [rows_bp, hfb, h]

/-- Witness for C7: "120/80 mmHg" and "N/A" on concrete round trips. -/
theorem c7_bp_roundtrip_witness :
    (∃ r, get_vitals_pdf (post_vitals emptyDB 10 vitalsBP).1 vitalsBP.patient_id 20 =
        Except.ok r
      ∧ r.rows.lookup "Blood Pressure" = some "120/80 mmHg")
    ∧ (∃ r, get_vitals_pdf (post_vitals emptyDB 10 (baseVitals "p1")).1
          (baseVitals "p1").patient_id 20 = Except.ok r
      ∧ r.rows.lookup "Blood Pressure" = some "N/A") :=
  ⟨(c7_bp_roundtrip vitalsBP 10 20 120 80).1 rfl,
   (c7_bp_roundtrip (baseVitals "p1") 10 20 0 0).2 rfl⟩

/-- C9: when the blood-pressure object is present, the row is always
rendered in the "systolic/diastolic mmHg" shape with missing subfields
printed as "None" (Python `str(None)` inside the f-string), never as
"N/A"; "N/A" appears exactly when the nested object is absent. -/
theorem c9_bp_partial_fields (pid : String) (v : Vitals) (now : ℤ) (bp : BloodPressure) :
    (v.blood_pressure = some bp →
      (build_vitals_pdf pid v now).rows.lookup "Blood Pressure" =
        some (pyStrOptInt bp.systolic ++ "/" ++ pyStrOptInt bp.diastolic ++ " mmHg"))
    ∧ (v.blood_pressure = some { systolic := none, diastolic := none } →
      (build_vitals_pdf pid v now).rows.lookup "Blood Pressure" =
        some "None/None mmHg")
    ∧ (v.blood_pressure = some bp →
      (build_vitals_pdf pid v now).rows.lookup "Blood Pressure" ≠ some "N/A")
    ∧ (v.blood_pressure = none →
      (build_vitals_pdf pid v now).rows.lookup "Blood Pressure" = some "N/A") := by
  refine ⟨?_, ?_, ?_, ?_⟩
  · intro h
    rw [rows_bp, h]
  · intro h
    rw [rows_bp, h]
    rfl
  · intro h heq
    rw [rows_bp, h] at heq
    have hlen := congrArg String.length (Option.some.inj heq)
    simp only [String.length_append] at hlen
    have h1 : ("/" : String).length = 1 := rfl
    have h2 : (" mmHg" : String).length = 5 := rfl
    have h3 : ("N/A" : String).length = 3 := rfl
    rw [h1, h2, h3] at hlen
    omega
  · intro h
    rw [rows_bp, h]

/-- Witness for C9 at concrete partially-present blood pressures. -/
theorem c9_bp_partial_fields_witness :
    (build_vitals_pdf "p1" vitalsBPHalf 5).rows.lookup "Blood Pressure" =
      some "None/80 mmHg"
    ∧ (build_vitals_pdf "p1" vitalsBPEmpty 5).rows.lookup "Blood Pressure" =
      some "None/None mmHg"
    ∧ (build_vitals_pdf "p1" vitalsBPHalf 5).rows.lookup "Blood Pressure" ≠ some "N/A" :=
  ⟨(c9_bp_partial_fields "p1" vitalsBPHalf 5
      { systolic := none, diastolic := some 80 }).1 rfl,
   (c9_bp_partial_fields "p1" vitalsBPEmpty 5
      { systolic := none, diastolic := none }).2.1 rfl,
   (c9_bp_partial_fields "p1" vitalsBPHalf 5
      { systolic := none, diastolic := some 80 }).2.2.1 rfl⟩

/-- C10 counterexample: a create request that omits `timestamp` is stored
with the server-filled instant in the `timestamp` field, not with an
explicit null, so "absent optional inputs stored as explicit nulls" fails
for the `timestamp` field. -/
theorem c10_timestamp_not_null_counterexample :
    (baseVitals "p1").timestamp = none
    ∧ ((post_vitals emptyDB 5 (baseVitals "p1")).1.docs.head?.bind
        (fun d => d.lookup "timestamp")) = some (Bson.time 5)
    ∧ (some (Bson.time 5) : Option Bson) ≠ some Bson.null := by
  exact ⟨rfl, rfl, by simp⟩

/-- C10 (amended): every persisted document contains all nine record
fields (after the `_id` the insert assigns); absent optional inputs other
than `timestamp` are stored as explicit nulls rather than omitted keys,
while an absent `timestamp` is stored as the server-filled current
instant (a present one is stored as given). -/
theorem c10_stored_document_shape (db : DB) (now : ℤ) (v : Vitals) :
    ((post_vitals db now v).1.docs = db.docs ++ [insertedDoc db now v])
    ∧ ((insertedDoc db now v).map Prod.fst =
        ["_id", "patient_id", "patient_name", "timestamp", "heart_rate",
         "blood_pressure", "respiratory_rate", "temperature_c",
         "oxygen_saturation", "notes"])
    ∧ (v.patient_name = none →
        (insertedDoc db now v).lookup "patient_name" = some Bson.null)
    ∧ (v.heart_rate = none →
        (insertedDoc db now v).lookup "heart_rate" = some Bson.null)
    ∧ (v.blood_pressure = none →
        (insertedDoc db now v).lookup "blood_pressure" = some Bson.null)
    ∧ (v.respiratory_rate = none →
        (insertedDoc db now v).lookup "respiratory_rate" = some Bson.null)
    ∧ (v.temperature_c = none →
        (insertedDoc db now v).lookup "temperature_c" = some Bson.null)
    ∧ (v.oxygen_saturation = none →
        (insertedDoc db now v).lookup "oxygen_saturation" = some Bson.null)
    ∧ (v.notes = none →
        (insertedDoc db now v).lookup "notes" = some Bson.null)
    ∧ ((insertedDoc db now v).lookup "timestamp" =
        some (Bson.time (v.timestamp.getD now))) := by
  have hfe : filledVitals now v =
      { v with timestamp := some (v.timestamp.getD now) } := by
    unfold filledVitals
    by_cases h : v.timestamp = none
    · simp [h]
    · have hsome : some (v.timestamp.getD now) = v.timestamp := by
        cases ht : v.timestamp with
        | none => exact absurd ht h
        | some t => rfl
      rw [if_neg h, hsome]
  refine ⟨rfl, rfl, ?_, ?_, ?_, ?_, ?_, ?_, ?_, insertedDoc_lookup_ts db now v⟩
  all_goals intro h
  all_goals simp [insertedDoc, hfe, Vitals.dict, List.lookup, h, optStrBson,
    optIntBson, optFloatBson]

/-- Witness for the amended C10 at the minimal request. -/
theorem c10_stored_document_shape_witness :
    ((insertedDoc emptyDB 5 (baseVitals "p1")).lookup "patient_name" = some Bson.null)
    ∧ ((insertedDoc emptyDB 5 (baseVitals "p1")).lookup "notes" = some Bson.null)
    ∧ ((insertedDoc emptyDB 5 (baseVitals "p1")).lookup "timestamp" =
        some (Bson.time 5)) :=
  ⟨(c10_stored_document_shape emptyDB 5 (baseVitals "p1")).2.2.1 rfl,
   (c10_stored_document_shape emptyDB 5 (baseVitals "p1")).2.2.2.2.2.2.2.2.1 rfl,
   (c10_stored_document_shape emptyDB 5 (baseVitals "p1")).2.2.2.2.2.2.2.2.2⟩

/-- C3: when a create request omits `timestamp`, the server substitutes
the current UTC instant before persisting: the stored document's
`timestamp` is the `now` of the call (and is not null), and an immediate
re-read through the list endpoint returns that same instant (serialized to
its ISO string) on the newly stored record. -/
theorem c3_missing_timestamp_filled (db : DB) (now : ℤ) (v : Vitals)
    (h : v.timestamp = none) :
    ((post_vitals db now v).1.docs = db.docs ++ [insertedDoc db now v])
    ∧ (insertedDoc db now v).lookup "timestamp" = some (Bson.time now)
    ∧ (some (Bson.time now) : Option Bson) ≠ some Bson.null
    ∧ ∃ l, get_vitals (post_vitals db now v).1 v.patient_id = Except.ok l
        ∧ renderDoc (insertedDoc db now v) ∈ l
        ∧ (renderDoc (insertedDoc db now v)).lookup "timestamp" =
            some (Bson.str (isoformat now)) := by
  have hts : (insertedDoc db now v).lookup "timestamp" = some (Bson.time now) := by
    rw [insertedDoc_lookup_ts, h]
    rfl
  refine ⟨rfl, hts, by simp, ?_⟩
  have hd : insertedDoc db now v ∈ patientDocs (post_vitals db now v).1 v.patient_id := by
    rw [patientDocs_post]
    exact List.mem_append_right _ (List.mem_singleton_self _)
  obtain ⟨l, hl, hm⟩ := get_vitals_of_mem _ _ _ hd
  refine ⟨l, hl, hm, ?_⟩
  rw [renderDoc_lookup_ts, hts]
  show some (renderField "timestamp" (Bson.time now)) = _
  rw [renderField_ts_time]

/-- Witness for C3 at the minimal request. -/
theorem c3_missing_timestamp_filled_witness :
    ∃ l, get_vitals (post_vitals emptyDB 5 (baseVitals "p1")).1
          (baseVitals "p1").patient_id = Except.ok l
      ∧ renderDoc (insertedDoc emptyDB 5 (baseVitals "p1")) ∈ l
      ∧ (renderDoc (insertedDoc emptyDB 5 (baseVitals "p1"))).lookup "timestamp" =
          some (Bson.str (isoformat 5)) :=
  (c3_missing_timestamp_filled emptyDB 5 (baseVitals "p1") rfl).2.2.2

/-- C4: listing a patient with zero stored records yields 404, never an
empty 200 array; a patient with at least one record gets a success with a
non-empty array. -/
theorem c4_list_empty_is_404 (db : DB) (pid : String) :
    (patientDocs db pid = [] → get_vitals db pid = Except.error 404)
    ∧ (patientDocs db pid ≠ [] →
        ∃ l, get_vitals db pid = Except.ok l ∧ l ≠ []) := by
  constructor
  · intro h
    unfold get_vitals sortedPatientDocs
    rw [h]
    rfl
  · intro h
    obtain ⟨d, hd⟩ := List.exists_mem_of_ne_nil _ h
    obtain ⟨l, hl, hm⟩ := get_vitals_of_mem db pid d hd
    exact ⟨l, hl, List.ne_nil_of_mem hm⟩

/-- Witness for C4: an unknown patient gets 404; a known one a non-empty
success. -/
theorem c4_list_empty_is_404_witness :
    (get_vitals emptyDB "unknown_patient" = Except.error 404)
    ∧ ∃ l, get_vitals dbOne "p1" = Except.ok l ∧ l ≠ [] :=
  ⟨(c4_list_empty_is_404 emptyDB "unknown_patient").1 rfl,
   (c4_list_empty_is_404 dbOne "p1").2 (List.length_pos.mp (by decide))⟩

/-- C8: while rebuilding the Record Model during PDF generation, the
timestamp field never raises: a native time value passes through
unchanged, a parseable timestamp string is converted to the native value,
an unparsable timestamp string is replaced by the current instant; and
whenever the fetched document re-validates, the endpoint answers with the
rendered PDF rather than an error response. -/
theorem c8_timestamp_tolerant (d : BsonDoc) (now t : ℤ) (s : String)
    (db : DB) (pid : String) (v : Vitals) :
    (d.lookup "timestamp" = some (Bson.time t) →
      (normalizeDoc d now).lookup "timestamp" = some (Bson.time t))
    ∧ (d.lookup "timestamp" = some (Bson.str s) → parseIso s = some t →
      (normalizeDoc d now).lookup "timestamp" = some (Bson.time t))
    ∧ (d.lookup "timestamp" = some (Bson.str s) → parseIso s = none →
      (normalizeDoc d now).lookup "timestamp" = some (Bson.time now))
    ∧ ((sortedPatientDocs db pid).head? = some d →
      docToVitals (normalizeDoc d now) = some v →
      get_vitals_pdf db pid now = Except.ok (build_vitals_pdf pid v now)) := by
  have hfilter : (d.filter (fun kv => kv.1 ≠ "_id")).lookup "timestamp" =
      d.lookup "timestamp" :=
    lookup_filter_key d "timestamp" "_id" (by decide)
  refine ⟨?_, ?_, ?_, ?_⟩
  · intro h
    unfold normalizeDoc
    simp only [hfilter, h]
  · intro h hp
    unfold normalizeDoc
    simp only [hfilter, h]
    rw [lookup_map_keyed (fun k x =>
          if k = "timestamp" then Bson.time ((parseIso s).getD now) else x),
        hfilter, h, hp]
    rfl
  · intro h hp
    unfold normalizeDoc
    simp only [hfilter, h]
    rw [lookup_map_keyed (fun k x =>
          if k = "timestamp" then Bson.time ((parseIso s).getD now) else x),
        hfilter, h, hp]
    rfl
  · intro hhead hv
    unfold get_vitals_pdf
    rw [hhead]
    simp only [hv]

/-- Witness for C8: all three timestamp shapes at concrete documents, and
a successful PDF response on a stored record. -/
theorem c8_timestamp_tolerant_witness :
    ((normalizeDoc [("timestamp", Bson.time 42)] 7).lookup "timestamp" =
      some (Bson.time 42))
    ∧ ((normalizeDoc [("timestamp", Bson.str "123")] 7).lookup "timestamp" =
      some (Bson.time 123))
    ∧ ((normalizeDoc [("timestamp", Bson.str "garbage")] 7).lookup "timestamp" =
      some (Bson.time 7))
    ∧ get_vitals_pdf dbOne "p1" 99 =
        Except.ok (build_vitals_pdf "p1" (filledVitals 10 vitalsHr72) 99) :=
  ⟨(c8_timestamp_tolerant [("timestamp", Bson.time 42)] 7 42 "" emptyDB "" (baseVitals "")).1 rfl,
   (c8_timestamp_tolerant [("timestamp", Bson.str "123")] 7 123 "123" emptyDB ""
      (baseVitals "")).2.1 rfl (by decide),
   (c8_timestamp_tolerant [("timestamp", Bson.str "garbage")] 7 0 "garbage" emptyDB ""
      (baseVitals "")).2.2.1 rfl (by decide),
   (c8_timestamp_tolerant (insertedDoc emptyDB 10 vitalsHr72) 99 0 "" dbOne "p1"
      (filledVitals 10 vitalsHr72)).2.2.2 rfl rfl⟩

/-- C5: for a patient whose stored records carry (native) pairwise
distinct timestamps, the list endpoint returns exactly that patient's
records, ordered by timestamp strictly descending. -/
theorem c5_list_sorted_desc (db : DB) (pid : String)
    (hts : ∀ d ∈ patientDocs db pid, (tsInt d).isSome = true)
    (hdist : (patientDocs db pid).Pairwise (fun d e => tsInt d ≠ tsInt e))
    (hne : patientDocs db pid ≠ []) :
    ∃ ds : List BsonDoc, get_vitals db pid = Except.ok (ds.map renderDoc)
      ∧ ds.Perm (patientDocs db pid)
      ∧ ds.Pairwise (fun d e => ∀ t u, tsInt d = some t → tsInt e = some u → u < t) := by
  refine ⟨sortedPatientDocs db pid, ?_, sortedPatientDocs_perm db pid, ?_⟩
  · have hsne : sortedPatientDocs db pid ≠ [] := sortedPatientDocs_ne_nil hne
    have hempty : ((sortedPatientDocs db pid).map renderDoc).isEmpty = false := by
      rw [List.isEmpty_eq_false]
      intro hm
      exact hsne (List.map_eq_nil.mp hm)
    unfold get_vitals
    simp [hempty]
  · have hdist2 : (sortedPatientDocs db pid).Pairwise (fun d e => tsInt d ≠ tsInt e) := by
      rw [List.Perm.pairwise_iff (fun h hh => h hh.symm) (sortedPatientDocs_perm db pid)]
      exact hdist
    refine ((sortedPatientDocs_sorted db pid).and hdist2).imp ?_
    rintro a b ⟨hr, hne2⟩ t u ht hu
    have hb : bsonLe (tsOf b) (tsOf a) := hr
    rw [tsOf_time ht, tsOf_time hu] at hb
    have h1 : u ≤ t := bsonLe_time_le hb
    have h2 : u ≠ t := by
      intro he
      apply hne2
      rw [ht, hu, he]
    exact lt_of_le_of_ne h1 h2

/-- Witness for C5: two records stored at instants 10 and 20. -/
theorem c5_list_sorted_desc_witness :
    ∃ ds : List BsonDoc, get_vitals dbTwo "p1" = Except.ok (ds.map renderDoc)
      ∧ ds.Perm (patientDocs dbTwo "p1")
      ∧ ds.Pairwise (fun d e => ∀ t u, tsInt d = some t → tsInt e = some u → u < t) :=
  c5_list_sorted_desc dbTwo "p1" (by decide) (by decide)
    (List.length_pos.mp (by decide))

/-- C6: PDF generation 404s when the patient has no records; with at least
one record it picks a record whose timestamp is maximal among the
patient's records, re-validates it, and responds with the rendered PDF. -/
theorem c6_pdf_latest (db : DB) (pid : String) (now : ℤ)
    (hts : ∀ d ∈ patientDocs db pid, (tsInt d).isSome = true)
    (hwf : ∀ d ∈ patientDocs db pid, (docToVitals (normalizeDoc d now)).isSome = true) :
    (patientDocs db pid = [] → get_vitals_pdf db pid now = Except.error 404)
    ∧ (patientDocs db pid ≠ [] →
        ∃ d v, (sortedPatientDocs db pid).head? = some d
          ∧ d ∈ patientDocs db pid
          ∧ (∀ e ∈ patientDocs db pid, ∀ t u,
              tsInt d = some t → tsInt e = some u → u ≤ t)
          ∧ docToVitals (normalizeDoc d now) = some v
          ∧ get_vitals_pdf db pid now = Except.ok (build_vitals_pdf pid v now)) := by
  constructor
  · intro h
    unfold get_vitals_pdf sortedPatientDocs
    rw [h]
    rfl
  · intro hne
    obtain ⟨d, tail, hds⟩ := List.exists_cons_of_ne_nil (sortedPatientDocs_ne_nil hne)
    have hdm : d ∈ patientDocs db pid :=
      (mem_sortedPatientDocs db pid d).mp (hds ▸ List.mem_cons_self d tail)
    have hsorted := sortedPatientDocs_sorted db pid
    have hmax : ∀ e ∈ patientDocs db pid, ∀ t u,
        tsInt d = some t → tsInt e = some u → u ≤ t := by
      intro e he t u ht hu
      have hes : e ∈ sortedPatientDocs db pid := (mem_sortedPatientDocs db pid e).mpr he
      rw [hds] at hes
      rcases List.mem_cons.mp hes with rfl | hetail
      · rw [ht] at hu
        exact le_of_eq (Option.some.inj hu).symm
      · rw [hds] at hsorted
        have hrel : tsDesc d e := List.rel_of_sorted_cons hsorted e hetail
        have hb : bsonLe (tsOf e) (tsOf d) := hrel
        rw [tsOf_time ht, tsOf_time hu] at hb
        exact bsonLe_time_le hb
    obtain ⟨v, hv⟩ := Option.isSome_iff_exists.mp (hwf d hdm)
    have hhead : (sortedPatientDocs db pid).head? = some d := by
      rw [hds]
      rfl
    refine ⟨d, v, hhead, hdm, hmax, hv, ?_⟩
    unfold get_vitals_pdf
    rw [hhead]
    simp only [hv]

/-- Witness for C6: 404 on the empty store, and the instant-20 record
selected out of the two-record store. -/
theorem c6_pdf_latest_witness :
    (get_vitals_pdf emptyDB "p1" 99 = Except.error 404)
    ∧ ∃ d v, (sortedPatientDocs dbTwo "p1").head? = some d
        ∧ d ∈ patientDocs dbTwo "p1"
        ∧ (∀ e ∈ patientDocs dbTwo "p1", ∀ t u,
            tsInt d = some t → tsInt e = some u → u ≤ t)
        ∧ docToVitals (normalizeDoc d 99) = some v
        ∧ get_vitals_pdf dbTwo "p1" 99 = Except.ok (build_vitals_pdf "p1" v 99) :=
  ⟨(c6_pdf_latest emptyDB "p1" 99 (by decide) (by decide)).1 rfl,
   (c6_pdf_latest dbTwo "p1" 99 (by decide) (by decide)).2
     (List.length_pos.mp (by decide))⟩

end PatientVitals
